import Mathlib

/-!
Verification of the authentication and request-authorization core of the
JourneyConnect hackathon server (`src/server.js`).

The embedding mirrors the source:
- `register` embeds the handler of `POST /api/register` (server.js lines 143-181);
- `login` embeds the handler of `POST /api/login` (server.js lines 184-220);
- `authenticateToken` embeds the middleware at lines 118-133, split into
  token extraction (`extractToken`, lines 119-124, with JavaScript
  `String.split(' ')` modelled by `jsSplit`) and the verify-and-attach gate;
- `createRide` / `createPlan` embed the protected handlers at lines 223-240
  and 274-291;
- `serverStartup` embeds the unconditional startup path: line 14 computes
  `JWT_SECRET = process.env.JWT_SECRET || 'your-secret-key-here'` and line 367
  starts listening, with no check that the variable was set.

The bcryptjs and jsonwebtoken collaborators are external npm libraries, so
they are modelled from the spec (sections 4.2 and 4.3): a digest remembers the
plaintext it was derived from together with its salt, and a signed token
carries its claims, its expiration instant, and the secret it was signed with.
Request-body fields are `Option String` (or `Option Nat`), with JavaScript
truthiness of a field embedded by `present` (absent and empty both falsy).
Time is a `Nat` of seconds.
-/

/-- Modelled from the spec: the Password Hasher digest (spec section 4.2, the
bcryptjs collaborator). A digest is one-way salted output; the model keeps the
plaintext and salt as data so that `bcryptCompare` can be stated. -/
structure BHash where
  pw : String
  salt : Nat
deriving Repr, DecidableEq

/-- Modelled from the spec: `hash(plaintext) -> digest` with a randomized salt
(the salt is an explicit argument, standing for the randomness). -/
def bcryptHash (password : String) (salt : Nat) : BHash :=
  { pw := password, salt := salt }

/-- Modelled from the spec: `verify(plaintext, digest) -> bool`; true exactly
when the digest was derived from this plaintext. -/
def bcryptCompare (password : String) (digest : BHash) : Bool :=
  digest.pw == password

/-- The decoded identity carried by a token: `{ userId, email }`, as signed at
server.js lines 173 and 206. -/
structure Claims where
  userId : Nat
  email : String
deriving Repr, DecidableEq

/-- Modelled from the spec: a signed token (spec section 4.3, the jsonwebtoken
collaborator). It carries the claims, the expiration instant, and the secret
it was signed with (`sig`); verification compares `sig` to the verifier's
secret, standing for the signature check. -/
structure Jwt where
  userId : Nat
  email : String
  exp : Nat
  sig : String
deriving Repr, DecidableEq

/-- Modelled from the spec: `issue(userId, email) -> token` with a 24-hour
expiration, signed with the server-held secret. Embeds
`jwt.sign({ userId, email }, JWT_SECRET, { expiresIn: '24h' })`
(server.js lines 173 and 206). -/
def jwtSign (userId : Nat) (email : String) (secret : String) (now : Nat) : Jwt :=
  { userId := userId, email := email, exp := now + 24 * 60 * 60, sig := secret }

/-- A wire token as presented by a client: either an actual signed token or a
malformed string that does not decode at all. -/
inductive Token where
  | jwt (j : Jwt)
  | malformed (raw : String)
deriving Repr, DecidableEq

/-- Modelled from the spec: `verify(token) -> {userId, email} | fails`.
A decodable token verifies exactly when its signature matches the secret and
it is not expired; malformed input, bad signature and expiration all collapse
to `none` (spec section 4.3). -/
def jwtVerify (secret : String) (now : Nat) : Token → Option Claims
  | .jwt j => if j.sig == secret && now < j.exp then some { userId := j.userId, email := j.email } else none
  | .malformed _ => none

/-- A row of the `users` table (server.js lines 45-54): id, unique email,
password digest, name, optional phone. -/
structure User where
  id : Nat
  email : String
  password : BHash
  name : String
  phone : Option String
deriving Repr, DecidableEq

/-- The users table, in insertion order. -/
abbrev Store := List User

/-- Embeds `db.get('SELECT * FROM users WHERE email = ?', [email], ...)`
(server.js lines 152 and 192): the first row with this email, if any. -/
def findByEmail (st : Store) (email : String) : Option User :=
  st.find? (fun u => u.email == email)

/-- The user object put in success responses: `{ id, email, name, phone }`
(server.js lines 174 and 209-214). It has no password field. -/
structure PublicUser where
  id : Nat
  email : String
  name : String
  phone : Option String
deriving Repr, DecidableEq

/-- The projection applied on both success response paths. -/
def publicUserView (u : User) : PublicUser :=
  { id := u.id, email := u.email, name := u.name, phone := u.phone }

/-- An HTTP response of the register/login endpoints: status code, optional
message, optional token, optional user object. -/
structure Response where
  status : Nat
  message : Option String
  token : Option Token
  user : Option PublicUser
deriving Repr, DecidableEq

/-- The observable side effects a handler performs, in order. -/
inductive Effect where
  | dbGetByEmail (email : String)
  | bcryptHashEff (password : String)
  | dbInsertUser (u : User)
  | bcryptCompareEff (password : String)
  | jwtSignEff (userId : Nat) (email : String)
deriving Repr, DecidableEq

/-- JavaScript truthiness of an optional string field: absent, `null` and the
empty string are all falsy (`!email`, server.js lines 147 and 188). -/
def present : Option String → Bool
  | none => false
  | some s => !s.isEmpty

/-- The body of `POST /api/register` (server.js line 145). -/
structure RegisterReq where
  email : Option String
  password : Option String
  name : Option String
  phone : Option String
deriving Repr, DecidableEq

/-- Embeds the `POST /api/register` handler (server.js lines 143-181):
validate presence, look up the email, hash, insert, sign, respond. `nextId`
models the AUTOINCREMENT id sqlite assigns (`this.lastID`), `salt` the salt
bcrypt draws, `now` the clock at signing. Returns the response, the resulting
users table, and the trace of effects performed. -/
def register (st : Store) (req : RegisterReq) (nextId : Nat) (salt : Nat)
    (secret : String) (now : Nat) : Response × Store × List Effect :=
  if !(present req.email && present req.password && present req.name) then
    ({ status := 400, message := some "Email, password, and name are required",
       token := none, user := none }, st, [])
  else
    match findByEmail st (req.email.getD "") with
    | some _ =>
      ({ status := 400, message := some "User already exists",
         token := none, user := none }, st, [.dbGetByEmail (req.email.getD "")])
    | none =>
      ({ status := 201, message := none,
         token := some (.jwt (jwtSign nextId (req.email.getD "") secret now)),
         user := some { id := nextId, email := req.email.getD "",
                        name := req.name.getD "", phone := req.phone } },
       st ++ [{ id := nextId, email := req.email.getD "",
                password := bcryptHash (req.password.getD "") salt,
                name := req.name.getD "", phone := req.phone }],
       [.dbGetByEmail (req.email.getD ""), .bcryptHashEff (req.password.getD ""),
        .dbInsertUser { id := nextId, email := req.email.getD "",
                        password := bcryptHash (req.password.getD "") salt,
                        name := req.name.getD "", phone := req.phone },
        .jwtSignEff nextId (req.email.getD "")])

/-- The body of `POST /api/login` (server.js line 186). -/
structure LoginReq where
  email : Option String
  password : Option String
deriving Repr, DecidableEq

/-- Embeds the `POST /api/login` handler (server.js lines 184-220): validate
presence, look up the email, compare the password, sign, respond. The store is
not modified. Returns the response and the trace of effects performed. -/
def login (st : Store) (req : LoginReq) (secret : String) (now : Nat) :
    Response × List Effect :=
  if !(present req.email && present req.password) then
    ({ status := 400, message := some "Email and password are required",
       token := none, user := none }, [])
  else
    match findByEmail st (req.email.getD "") with
    | none =>
      ({ status := 400, message := some "Invalid credentials",
         token := none, user := none }, [.dbGetByEmail (req.email.getD "")])
    | some user =>
      if !(bcryptCompare (req.password.getD "") user.password) then
        ({ status := 400, message := some "Invalid credentials",
           token := none, user := none },
         [.dbGetByEmail (req.email.getD ""), .bcryptCompareEff (req.password.getD "")])
      else
        ({ status := 200, message := none,
           token := some (.jwt (jwtSign user.id user.email secret now)),
           user := some (publicUserView user) },
         [.dbGetByEmail (req.email.getD ""), .bcryptCompareEff (req.password.getD ""),
          .jwtSignEff user.id user.email])

/-- The outcome of the authentication middleware: a denial with status and
message, or authorized with the decoded claims attached (`req.user`). -/
inductive AuthResult (C : Type) where
  | denied (status : Nat) (message : String)
  | allowed (claims : C)
deriving Repr, DecidableEq

/-- Embeds server.js lines 122-132: with `token` the (possibly missing) value
extracted from the header, reply 401 when it is falsy, 403 when `verify`
fails, and otherwise attach the decoded claims. Generic over the wire token
type and the verifier, which in the server is `jwt.verify(., JWT_SECRET)`. -/
def authenticateToken {T C : Type} (verify : T → Option C) (token : Option T) :
    AuthResult C :=
  match token with
  | none => .denied 401 "Access token required"
  | some t =>
    match verify t with
    | none => .denied 403 "Invalid token"
    | some claims => .allowed claims

/-- The space character, the separator of `authHeader.split(' ')`. -/
def spaceChar : Char := Char.ofNat 32

/-- JavaScript `String.split(sep)` on a single-character separator, over the
string as a list of characters: splits at every occurrence, keeping empty
pieces, and the empty string yields one empty piece. -/
def jsSplit (sep : Char) : List Char → List (List Char)
  | [] => [[]]
  | c :: rest =>
    match jsSplit sep rest with
    | [] => [[]]
    | w :: ws => if c = sep then [] :: w :: ws else (c :: w) :: ws

/-- Embeds server.js lines 119-124:
`const token = authHeader && authHeader.split(' ')[1]` followed by
`if (!token)`. Yields `none` exactly when the middleware replies 401: header
absent, no second space-separated piece, or an empty second piece. -/
def extractToken (authHeader : Option (List Char)) : Option (List Char) :=
  match authHeader with
  | none => none
  | some h =>
    match (jsSplit spaceChar h).get? 1 with
    | none => none
    | some t => if t.isEmpty then none else some t

/-- The whole middleware (server.js lines 118-133): extraction composed with
the verify-and-attach gate. -/
def authGate {C : Type} (verify : List Char → Option C)
    (authHeader : Option (List Char)) : AuthResult C :=
  authenticateToken verify (extractToken authHeader)

/-- A row of the `carpool_rides` table (server.js lines 57-71), for the fields
the create handler writes. -/
structure Ride where
  id : Nat
  user_id : Nat
  origin : String
  destination : String
  departure_time : String
  available_seats : Nat
  price_per_seat : Option String
  description : Option String
deriving Repr, DecidableEq

/-- JavaScript truthiness of an optional numeric field: absent and 0 are
falsy (`!available_seats`, server.js line 226). -/
def presentNat : Option Nat → Bool
  | none => false
  | some n => !(n == 0)

/-- The body of `POST /api/carpool/rides` (server.js line 224). The handler
destructures only the listed fields; `user_id` stands for a client-supplied
owner id, which the handler never reads. -/
structure RideReq where
  user_id : Option Nat
  origin : Option String
  destination : Option String
  departure_time : Option String
  available_seats : Option Nat
  price_per_seat : Option String
  description : Option String
deriving Repr, DecidableEq

/-- The response of the create handlers: status, message, and the new row id
on success (server.js lines 227 and 237). -/
structure CreateResponse where
  status : Nat
  message : String
  id : Option Nat
deriving Repr, DecidableEq

/-- Embeds the `POST /api/carpool/rides` handler body after the middleware
(server.js lines 223-240): validate presence, insert with
`user_id = req.user.userId`. -/
def createRide (claims : Claims) (req : RideReq) (rides : List Ride)
    (nextId : Nat) : CreateResponse × List Ride :=
  if !(present req.origin && present req.destination &&
       present req.departure_time && presentNat req.available_seats) then
    ({ status := 400, message := "All required fields must be provided", id := none }, rides)
  else
    let r : Ride :=
      { id := nextId, user_id := claims.userId, origin := req.origin.getD "",
        destination := req.destination.getD "",
        departure_time := req.departure_time.getD "",
        available_seats := req.available_seats.getD 0,
        price_per_seat := req.price_per_seat, description := req.description }
    ({ status := 201, message := "Ride created successfully", id := some nextId },
     rides ++ [r])

/-- A row of the `travel_plans` table (server.js lines 74-88), for the fields
the create handler writes. -/
structure Plan where
  id : Nat
  user_id : Nat
  destination : String
  start_date : String
  end_date : String
  description : Option String
  budget_range : Option String
  interests : Option String
deriving Repr, DecidableEq

/-- The body of `POST /api/travel/plans` (server.js line 275); `user_id`
stands for a client-supplied owner id, which the handler never reads. -/
structure PlanReq where
  user_id : Option Nat
  destination : Option String
  start_date : Option String
  end_date : Option String
  description : Option String
  budget_range : Option String
  interests : Option String
deriving Repr, DecidableEq

/-- Embeds the `POST /api/travel/plans` handler body after the middleware
(server.js lines 274-291): validate presence, insert with
`user_id = req.user.userId`. -/
def createPlan (claims : Claims) (req : PlanReq) (plans : List Plan)
    (nextId : Nat) : CreateResponse × List Plan :=
  if !(present req.destination && present req.start_date && present req.end_date) then
    ({ status := 400, message := "Destination, start date, and end date are required",
       id := none }, plans)
  else
    let p : Plan :=
      { id := nextId, user_id := claims.userId,
        destination := req.destination.getD "",
        start_date := req.start_date.getD "", end_date := req.end_date.getD "",
        description := req.description, budget_range := req.budget_range,
        interests := req.interests }
    ({ status := 201, message := "Travel plan created successfully", id := some nextId },
     plans ++ [p])

/-- The outcome of a protected endpoint: the middleware's denial, or the
handler's result. -/
inductive ProtectedResult (R : Type) where
  | authFailed (status : Nat) (message : String)
  | handled (r : R)
deriving Repr, DecidableEq

/-- The protected ride endpoint: middleware then handler (server.js line 223). -/
def postCarpoolRide (verify : List Char → Option Claims)
    (authHeader : Option (List Char)) (req : RideReq) (rides : List Ride)
    (nextId : Nat) : ProtectedResult (CreateResponse × List Ride) :=
  match authGate verify authHeader with
  | .denied s m => .authFailed s m
  | .allowed claims => .handled (createRide claims req rides nextId)

/-- The protected plan endpoint: middleware then handler (server.js line 274). -/
def postTravelPlan (verify : List Char → Option Claims)
    (authHeader : Option (List Char)) (req : PlanReq) (plans : List Plan)
    (nextId : Nat) : ProtectedResult (CreateResponse × List Plan) :=
  match authGate verify authHeader with
  | .denied s m => .authFailed s m
  | .allowed claims => .handled (createPlan claims req plans nextId)

/-- A startup outcome: the process starts listening with a signing secret, or
refuses to start. -/
inductive Startup where
  | started (secret : String)
  | refused
deriving Repr, DecidableEq

/-- Embeds server.js line 14,
`JWT_SECRET = process.env.JWT_SECRET || 'your-secret-key-here'`:
an unset (or empty, hence falsy) environment variable falls back to the
hardcoded default. -/
def jwtSecretOf (env : Option String) : String :=
  match env with
  | none => "your-secret-key-here"
  | some s => if s.isEmpty then "your-secret-key-here" else s

/-- Embeds the startup path: the module computes `JWT_SECRET` (line 14) and
unconditionally reaches `app.listen` (line 367); no code path refuses to
start. -/
def serverStartup (env : Option String) : Startup :=
  .started (jwtSecretOf env)

/-- Looking up an email that misses a table finds a row appended behind it. -/
theorem findByEmail_append_singleton (st : Store) (u : User)
    (h : findByEmail st u.email = none) :
    findByEmail (st ++ [u]) u.email = some u := by
  unfold findByEmail at h ⊢
  rw [List.find?_append, h]
  simp [List.find?]

/-- C1: for every email, password and name that pass presence validation,
`register` followed by `login` with the same credentials against the resulting
store succeeds (201 then 200), and the token `login` returns is accepted by
the verifier (at any instant before its 24-hour expiration), decoding to the
registered user's id and email. -/
theorem register_then_login_token_verifies
    (st : Store) (email password name : String) (phone : Option String)
    (nextId salt : Nat) (secret : String) (t1 t2 t3 : Nat)
    (he : present (some email) = true) (hp : present (some password) = true)
    (hn : present (some name) = true)
    (habs : findByEmail st email = none)
    (ht : t3 < t2 + 24 * 60 * 60) :
    (register st ⟨some email, some password, some name, phone⟩ nextId salt secret t1).1.status = 201 ∧
    (login (register st ⟨some email, some password, some name, phone⟩ nextId salt secret t1).2.1
        ⟨some email, some password⟩ secret t2).1.status = 200 ∧
    ∃ tok,
      (login (register st ⟨some email, some password, some name, phone⟩ nextId salt secret t1).2.1
          ⟨some email, some password⟩ secret t2).1.token = some tok ∧
      jwtVerify secret t3 tok = some { userId := nextId, email := email } := by
  have hreg : (register st ⟨some email, some password, some name, phone⟩ nextId salt secret t1).2.1
      = st ++ [{ id := nextId, email := email, password := { pw := password, salt := salt },
                 name := name, phone := phone }] := by
    simp [register, he, hp, hn, habs, bcryptHash]
  have hfind : findByEmail
      (st ++ [{ id := nextId, email := email, password := { pw := password, salt := salt },
                name := name, phone := phone }]) email
      = some { id := nextId, email := email, password := { pw := password, salt := salt },
               name := name, phone := phone } :=
    findByEmail_append_singleton st _ habs
  refine ⟨by simp [register, he, hp, hn, habs], ?_, ?_⟩
  · rw [hreg]
    simp [login, he, hp, hfind, bcryptCompare, bcryptHash]
  · refine ⟨.jwt (jwtSign nextId email secret t2), ?_, ?_⟩
    · rw [hreg]
      simp [login, he, hp, hfind, bcryptCompare, bcryptHash]
    · simp [jwtVerify, jwtSign, ht]

/-- C1 witness: the concrete scenario of spec section 8 on an empty store. -/
theorem register_then_login_token_verifies_witness :
    present (some "alice@example.com") = true ∧
    present (some "pw12345") = true ∧
    present (some "Alice") = true ∧
    findByEmail [] "alice@example.com" = none ∧
    (1000 : Nat) < 1000 + 24 * 60 * 60 ∧
    ((register [] ⟨some "alice@example.com", some "pw12345", some "Alice", none⟩
        1 7 "sek" 1000).1.status = 201 ∧
     (login (register [] ⟨some "alice@example.com", some "pw12345", some "Alice", none⟩
          1 7 "sek" 1000).2.1 ⟨some "alice@example.com", some "pw12345"⟩ "sek" 1000).1.status = 200 ∧
     ∃ tok,
       (login (register [] ⟨some "alice@example.com", some "pw12345", some "Alice", none⟩
            1 7 "sek" 1000).2.1 ⟨some "alice@example.com", some "pw12345"⟩ "sek" 1000).1.token
         = some tok ∧
       jwtVerify "sek" 1000 tok = some { userId := 1, email := "alice@example.com" }) :=
  ⟨by decide, by decide, by decide, by decide, by decide,
   register_then_login_token_verifies [] "alice@example.com" "pw12345" "Alice" none
     1 7 "sek" 1000 1000 1000 (by decide) (by decide) (by decide) (by decide) (by decide)⟩

/-- C2: whenever a register or login response carries a user object, it is
exactly the `publicUserView` projection (id, email, name, phone) of a user
row of the store, and that projection never depends on the password hash
field. -/
theorem response_user_is_public_view :
    (∀ (u : User) (h : BHash), publicUserView { u with password := h } = publicUserView u)
    ∧ (∀ st req nextId salt secret now r st' tr v,
        register st req nextId salt secret now = (r, st', tr) →
        r.user = some v →
        ∃ u, u ∈ st' ∧ v = publicUserView u)
    ∧ (∀ st req secret now r tr v,
        login st req secret now = (r, tr) →
        r.user = some v →
        ∃ u, u ∈ st ∧ v = publicUserView u) := by
  refine ⟨fun u h => rfl, ?_, ?_⟩
  · intro st req nextId salt secret now r st' tr v hEq hv
    unfold register at hEq
    split at hEq
    · cases hEq
      simp at hv
    · split at hEq
      · cases hEq
        simp at hv
      · cases hEq
        refine ⟨_, List.mem_append_right st (List.mem_singleton.mpr rfl), ?_⟩
        simp only [Option.some.injEq] at hv
        rw [← hv]
        rfl
  · intro st req secret now r tr v hEq hv
    unfold login at hEq
    split at hEq
    · cases hEq
      simp at hv
    · split at hEq
      · cases hEq
        simp at hv
      · rename_i user hfound
        split at hEq
        · cases hEq
          simp at hv
        · cases hEq
          simp only [Option.some.injEq] at hv
          exact ⟨user, List.mem_of_find?_eq_some hfound, hv.symm⟩

/-- C2 witness: a concrete successful registration returns exactly the public
view of the stored row. -/
theorem response_user_is_public_view_witness :
    (register [] ⟨some "a@b", some "pw", some "A", none⟩ 1 7 "sek" 0).1.user
      = some { id := 1, email := "a@b", name := "A", phone := none } ∧
    ∃ u, u ∈ (register [] ⟨some "a@b", some "pw", some "A", none⟩ 1 7 "sek" 0).2.1 ∧
      ({ id := 1, email := "a@b", name := "A", phone := none } : PublicUser)
        = publicUserView u :=
  ⟨by decide,
   response_user_is_public_view.2.1 [] ⟨some "a@b", some "pw", some "A", none⟩ 1 7 "sek" 0
     (register [] ⟨some "a@b", some "pw", some "A", none⟩ 1 7 "sek" 0).1
     (register [] ⟨some "a@b", some "pw", some "A", none⟩ 1 7 "sek" 0).2.1
     (register [] ⟨some "a@b", some "pw", some "A", none⟩ 1 7 "sek" 0).2.2
     { id := 1, email := "a@b", name := "A", phone := none } rfl (by decide)⟩

/-- C3: a login for an absent email and a login for a present email with a
non-matching password produce identical responses: the same 400 status and
the same "Invalid credentials" message, with no distinguishing field. -/
theorem login_invalid_credentials_indistinguishable
    (st : Store) (e1 p1 e2 p2 secret : String) (t1 t2 : Nat)
    (he1 : present (some e1) = true) (hp1 : present (some p1) = true)
    (he2 : present (some e2) = true) (hp2 : present (some p2) = true)
    (habs : findByEmail st e1 = none)
    (u : User) (hfound : findByEmail st e2 = some u)
    (hbad : bcryptCompare p2 u.password = false) :
    (login st ⟨some e1, some p1⟩ secret t1).1 = (login st ⟨some e2, some p2⟩ secret t2).1 ∧
    (login st ⟨some e1, some p1⟩ secret t1).1
      = { status := 400, message := some "Invalid credentials", token := none, user := none } := by
  constructor <;> simp [login, he1, hp1, he2, hp2, habs, hfound, hbad]

/-- C3 witness: concrete store holding Bob; absent-email login and
wrong-password login coincide. -/
theorem login_invalid_credentials_indistinguishable_witness :
    present (some "alice@x") = true ∧ present (some "pw1") = true ∧
    present (some "bob@x") = true ∧ present (some "wrong") = true ∧
    findByEmail [{ id := 1, email := "bob@x", password := { pw := "pw", salt := 5 },
                   name := "Bob", phone := none }] "alice@x" = none ∧
    findByEmail [{ id := 1, email := "bob@x", password := { pw := "pw", salt := 5 },
                   name := "Bob", phone := none }] "bob@x"
      = some { id := 1, email := "bob@x", password := { pw := "pw", salt := 5 },
               name := "Bob", phone := none } ∧
    bcryptCompare "wrong" { pw := "pw", salt := 5 } = false ∧
    ((login [{ id := 1, email := "bob@x", password := { pw := "pw", salt := 5 },
               name := "Bob", phone := none }] ⟨some "alice@x", some "pw1"⟩ "sek" 3).1
       = (login [{ id := 1, email := "bob@x", password := { pw := "pw", salt := 5 },
                   name := "Bob", phone := none }] ⟨some "bob@x", some "wrong"⟩ "sek" 4).1 ∧
     (login [{ id := 1, email := "bob@x", password := { pw := "pw", salt := 5 },
               name := "Bob", phone := none }] ⟨some "alice@x", some "pw1"⟩ "sek" 3).1
       = { status := 400, message := some "Invalid credentials", token := none, user := none }) :=
  ⟨by decide, by decide, by decide, by decide, by decide, by decide, by decide,
   login_invalid_credentials_indistinguishable
     [{ id := 1, email := "bob@x", password := { pw := "pw", salt := 5 },
        name := "Bob", phone := none }]
     "alice@x" "pw1" "bob@x" "wrong" "sek" 3 4
     (by decide) (by decide) (by decide) (by decide) (by decide)
     { id := 1, email := "bob@x", password := { pw := "pw", salt := 5 },
       name := "Bob", phone := none } (by decide) (by decide)⟩

/-- C4: registering an email already present fails with 400 "User already
exists", leaves the store unchanged, and performs only the lookup (no hash, no
insert); the outcome is the same for any password the request carries; and on
the non-duplicate path the effect trace puts the duplicate lookup strictly
before the insert. -/
theorem register_duplicate_email
    (st : Store) (req : RegisterReq) (nextId salt : Nat) (secret : String) (now : Nat)
    (he : present req.email = true) (hp : present req.password = true)
    (hn : present req.name = true)
    (u : User) (hdup : findByEmail st (req.email.getD "") = some u) :
    register st req nextId salt secret now
      = ({ status := 400, message := some "User already exists", token := none, user := none },
         st, [.dbGetByEmail (req.email.getD "")])
    ∧ (∀ p2 : String, present (some p2) = true →
        register st { req with password := some p2 } nextId salt secret now
          = register st req nextId salt secret now)
    ∧ (∀ (st2 : Store) (req2 : RegisterReq) (nextId2 salt2 : Nat) (secret2 : String) (now2 : Nat),
        present req2.email = true → present req2.password = true → present req2.name = true →
        findByEmail st2 (req2.email.getD "") = none →
        (register st2 req2 nextId2 salt2 secret2 now2).2.2
          = [.dbGetByEmail (req2.email.getD ""), .bcryptHashEff (req2.password.getD ""),
             .dbInsertUser { id := nextId2, email := req2.email.getD "",
                             password := bcryptHash (req2.password.getD "") salt2,
                             name := req2.name.getD "", phone := req2.phone },
             .jwtSignEff nextId2 (req2.email.getD "")]) := by
  refine ⟨by simp [register, he, hp, hn, hdup], ?_, ?_⟩
  · intro p2 hp2
    simp [register, he, hp, hn, hp2, hdup]
  · intro st2 req2 nextId2 salt2 secret2 now2 he2 hp2 hn2 habs2
    simp [register, he2, hp2, hn2, habs2]

/-- C4 witness: re-registering Bob's email with a different password fails
with the duplicate error and does not change the store. -/
theorem register_duplicate_email_witness :
    present (some "bob@x") = true ∧ present (some "other") = true ∧
    present (some "B2") = true ∧
    findByEmail [{ id := 1, email := "bob@x", password := { pw := "pw", salt := 5 },
                   name := "Bob", phone := none }] "bob@x"
      = some { id := 1, email := "bob@x", password := { pw := "pw", salt := 5 },
               name := "Bob", phone := none } ∧
    register [{ id := 1, email := "bob@x", password := { pw := "pw", salt := 5 },
                name := "Bob", phone := none }]
        ⟨some "bob@x", some "other", some "B2", none⟩ 2 9 "sek" 50
      = ({ status := 400, message := some "User already exists", token := none, user := none },
         [{ id := 1, email := "bob@x", password := { pw := "pw", salt := 5 },
            name := "Bob", phone := none }],
         [.dbGetByEmail "bob@x"]) :=
  ⟨by decide, by decide, by decide, by decide,
   (register_duplicate_email
     [{ id := 1, email := "bob@x", password := { pw := "pw", salt := 5 },
        name := "Bob", phone := none }]
     ⟨some "bob@x", some "other", some "B2", none⟩ 2 9 "sek" 50
     (by decide) (by decide) (by decide)
     { id := 1, email := "bob@x", password := { pw := "pw", salt := 5 },
       name := "Bob", phone := none } (by decide)).1⟩

/-- C5: a register request missing email, password or name fails with 400
"Email, password, and name are required" with an empty effect trace (no store
query, no hashing, no insert) and an unchanged store; a login request missing
email or password fails with 400 "Email and password are required" with an
empty effect trace (no store lookup). -/
theorem missing_fields_fail_before_effects :
    (∀ (st : Store) (req : RegisterReq) (nextId salt : Nat) (secret : String) (now : Nat),
      (present req.email && present req.password && present req.name) = false →
      register st req nextId salt secret now
        = ({ status := 400, message := some "Email, password, and name are required",
             token := none, user := none }, st, []))
    ∧ (∀ (st : Store) (req : LoginReq) (secret : String) (now : Nat),
      (present req.email && present req.password) = false →
      login st req secret now
        = ({ status := 400, message := some "Email and password are required",
             token := none, user := none }, [])) := by
  constructor
  · intro st req nextId salt secret now h
    simp [register, h]
  · intro st req secret now h
    simp [login, h]

/-- C5 witness: a register request with no name and a login request with an
empty password both fail up front with no effects. -/
theorem missing_fields_fail_before_effects_witness :
    (present (some "a@b") && present (some "pw") && present none) = false ∧
    (present (some "a@b") && present (some "")) = false ∧
    register [] ⟨some "a@b", some "pw", none, none⟩ 1 7 "sek" 0
      = ({ status := 400, message := some "Email, password, and name are required",
           token := none, user := none }, [], []) ∧
    login [] ⟨some "a@b", some ""⟩ "sek" 0
      = ({ status := 400, message := some "Email and password are required",
           token := none, user := none }, []) :=
  ⟨by decide, by decide,
   missing_fields_fail_before_effects.1 [] ⟨some "a@b", some "pw", none, none⟩ 1 7 "sek" 0
     (by decide),
   missing_fields_fail_before_effects.2 [] ⟨some "a@b", some ""⟩ "sek" 0 (by decide)⟩

/-- C6: the middleware replies 401 "Access token required" when no token can
be extracted from the authorization header and 403 "Invalid token" when
verification fails; when it succeeds, the protected handlers run with the
decoded claims attached, and every ride or travel plan they insert is stamped
with the authenticated `userId`, independently of any client-supplied owner
id in the body. -/
theorem authorize_gate_and_owner_stamping :
    (∀ (C : Type) (verify : List Char → Option C) (header : Option (List Char)),
        extractToken header = none →
        authGate verify header = .denied 401 "Access token required")
    ∧ (∀ (C : Type) (verify : List Char → Option C) (header : Option (List Char)) (t : List Char),
        extractToken header = some t → verify t = none →
        authGate verify header = .denied 403 "Invalid token")
    ∧ (∀ (verify : List Char → Option Claims) (header : Option (List Char))
         (claims : Claims) (req : RideReq) (rides : List Ride) (nextId : Nat),
        authGate verify header = .allowed claims →
        postCarpoolRide verify header req rides nextId
          = .handled (createRide claims req rides nextId))
    ∧ (∀ (claims : Claims) (req : RideReq) (rides : List Ride) (nextId : Nat)
         (r : CreateResponse) (rides' : List Ride),
        createRide claims req rides nextId = (r, rides') → r.status = 201 →
        (∀ x, createRide claims { req with user_id := x } rides nextId
            = createRide claims req rides nextId) ∧
        ∃ ride, rides' = rides ++ [ride] ∧ ride.user_id = claims.userId)
    ∧ (∀ (verify : List Char → Option Claims) (header : Option (List Char))
         (claims : Claims) (req : PlanReq) (plans : List Plan) (nextId : Nat),
        authGate verify header = .allowed claims →
        postTravelPlan verify header req plans nextId
          = .handled (createPlan claims req plans nextId))
    ∧ (∀ (claims : Claims) (req : PlanReq) (plans : List Plan) (nextId : Nat)
         (r : CreateResponse) (plans' : List Plan),
        createPlan claims req plans nextId = (r, plans') → r.status = 201 →
        (∀ x, createPlan claims { req with user_id := x } plans nextId
            = createPlan claims req plans nextId) ∧
        ∃ p, plans' = plans ++ [p] ∧ p.user_id = claims.userId) := by
  refine ⟨?_, ?_, ?_, ?_, ?_, ?_⟩
  · intro C verify header h
    simp [authGate, authenticateToken, h]
  · intro C verify header t ht hv
    simp [authGate, authenticateToken, ht, hv]
  · intro verify header claims req rides nextId h
    simp [postCarpoolRide, h]
  · intro claims req rides nextId r rides' hEq hs
    refine ⟨fun x => rfl, ?_⟩
    unfold createRide at hEq
    split at hEq
    · cases hEq
      simp at hs
    · cases hEq
      exact ⟨_, rfl, rfl⟩
  · intro verify header claims req plans nextId h
    simp [postTravelPlan, h]
  · intro claims req plans nextId r plans' hEq hs
    refine ⟨fun x => rfl, ?_⟩
    unfold createPlan at hEq
    split at hEq
    · cases hEq
      simp at hs
    · cases hEq
      exact ⟨_, rfl, rfl⟩

/-- C6 witness: a missing header is denied with 401, and a concrete valid
ride creation is stamped with the verified user id 7. -/
theorem authorize_gate_and_owner_stamping_witness :
    extractToken (none : Option (List Char)) = none ∧
    authGate (fun _ => (none : Option Nat)) none = .denied 401 "Access token required" ∧
    createRide { userId := 7, email := "x@y" }
        ⟨some 99, some "A", some "B", some "t0", some 3, none, none⟩ [] 1
      = ({ status := 201, message := "Ride created successfully", id := some 1 },
         [{ id := 1, user_id := 7, origin := "A", destination := "B",
            departure_time := "t0", available_seats := 3,
            price_per_seat := none, description := none }]) ∧
    (∀ x, createRide { userId := 7, email := "x@y" }
        { (⟨some 99, some "A", some "B", some "t0", some 3, none, none⟩ : RideReq)
          with user_id := x } [] 1
      = createRide { userId := 7, email := "x@y" }
          ⟨some 99, some "A", some "B", some "t0", some 3, none, none⟩ [] 1) ∧
    ∃ ride, [({ id := 1, user_id := 7, origin := "A", destination := "B",
                departure_time := "t0", available_seats := 3,
                price_per_seat := none, description := none } : Ride)]
        = [] ++ [ride] ∧ ride.user_id = (7 : Nat) :=
  ⟨rfl,
   authorize_gate_and_owner_stamping.1 Nat (fun _ => none) none rfl,
   by decide,
   (authorize_gate_and_owner_stamping.2.2.2.1 { userId := 7, email := "x@y" }
     ⟨some 99, some "A", some "B", some "t0", some 3, none, none⟩ [] 1
     { status := 201, message := "Ride created successfully", id := some 1 }
     [{ id := 1, user_id := 7, origin := "A", destination := "B",
        departure_time := "t0", available_seats := 3,
        price_per_seat := none, description := none }] (by decide) rfl).1,
   (authorize_gate_and_owner_stamping.2.2.2.1 { userId := 7, email := "x@y" }
     ⟨some 99, some "A", some "B", some "t0", some 3, none, none⟩ [] 1
     { status := 201, message := "Ride created successfully", id := some 1 }
     [{ id := 1, user_id := 7, origin := "A", destination := "B",
        departure_time := "t0", available_seats := 3,
        price_per_seat := none, description := none }] (by decide) rfl).2⟩

/-- C7: every token that fails verification, be it malformed, carrying a
wrong signature, or expired, draws the one identical denial: status 403 with
message "Invalid token"; two failing tokens are indistinguishable. -/
theorem invalid_token_responses_identical
    (secret : String) (now : Nat) (t t1 t2 : Token)
    (h : jwtVerify secret now t = none)
    (h1 : jwtVerify secret now t1 = none) (h2 : jwtVerify secret now t2 = none) :
    authenticateToken (jwtVerify secret now) (some t) = .denied 403 "Invalid token" ∧
    authenticateToken (jwtVerify secret now) (some t1)
      = authenticateToken (jwtVerify secret now) (some t2) := by
  constructor <;> simp [authenticateToken, h, h1, h2]

/-- C7 witness: a malformed token, an expired token and a badly signed token
all fail verification and draw the identical 403 response. -/
theorem invalid_token_responses_identical_witness :
    jwtVerify "sek" 90000 (.malformed "garbage") = none ∧
    jwtVerify "sek" 90000 (.jwt { userId := 1, email := "a", exp := 1000, sig := "sek" }) = none ∧
    jwtVerify "sek" 90000 (.jwt { userId := 1, email := "a", exp := 200000, sig := "oth" }) = none ∧
    (authenticateToken (jwtVerify "sek" 90000) (some (.malformed "garbage"))
       = .denied 403 "Invalid token" ∧
     authenticateToken (jwtVerify "sek" 90000)
         (some (.jwt { userId := 1, email := "a", exp := 1000, sig := "sek" }))
       = authenticateToken (jwtVerify "sek" 90000)
           (some (.jwt { userId := 1, email := "a", exp := 200000, sig := "oth" }))) :=
  ⟨by decide, by decide, by decide,
   invalid_token_responses_identical "sek" 90000 (.malformed "garbage")
     (.jwt { userId := 1, email := "a", exp := 1000, sig := "sek" })
     (.jwt { userId := 1, email := "a", exp := 200000, sig := "oth" })
     (by decide) (by decide) (by decide)⟩

/-- C8: an issued token expires exactly 24 hours after issuance, verifying it
at once returns the original userId and email, and verifying any token whose
expiration lies in the past fails. -/
theorem issue_verify_roundtrip_and_expiry
    (userId : Nat) (email secret : String) (now : Nat) :
    (jwtSign userId email secret now).exp = now + 24 * 60 * 60 ∧
    jwtVerify secret now (.jwt (jwtSign userId email secret now))
      = some { userId := userId, email := email } ∧
    ∀ (j : Jwt) (t : Nat), j.exp < t → jwtVerify secret t (.jwt j) = none := by
  refine ⟨rfl, by simp [jwtVerify, jwtSign], ?_⟩
  intro j t hlt
  have hnt : ¬(t < j.exp) := by omega
  simp [jwtVerify, hnt]

/-- C8 witness: the roundtrip at issuance time 0 and the rejection of a token
expired at 100 when checked at 200. -/
theorem issue_verify_roundtrip_and_expiry_witness :
    (jwtSign 1 "a" "sek" 0).exp = 0 + 24 * 60 * 60 ∧
    jwtVerify "sek" 0 (.jwt (jwtSign 1 "a" "sek" 0)) = some { userId := 1, email := "a" } ∧
    (100 : Nat) < 200 ∧
    jwtVerify "sek" 200 (.jwt { userId := 1, email := "a", exp := 100, sig := "sek" }) = none :=
  ⟨(issue_verify_roundtrip_and_expiry 1 "a" "sek" 0).1,
   (issue_verify_roundtrip_and_expiry 1 "a" "sek" 0).2.1,
   by decide,
   (issue_verify_roundtrip_and_expiry 1 "a" "sek" 0).2.2
     { userId := 1, email := "a", exp := 100, sig := "sek" } 200 (by decide)⟩

/-- C9 counterexample: with JWT_SECRET unset the process does not refuse to
start; it starts, holding the hardcoded fallback secret of server.js line 14. -/
theorem startup_without_secret_does_not_refuse :
    serverStartup none ≠ Startup.refused ∧
    serverStartup none = Startup.started "your-secret-key-here" := by
  constructor
  · intro h
    cases h
  · rfl

/-- C9 amended: if the signing-secret configuration (JWT_SECRET) is unset at
startup, the process does not fail fast; it starts anyway, running with the
default secret "your-secret-key-here", and no configuration ever makes it
refuse to start. -/
theorem startup_falls_back_to_default_secret :
    serverStartup none = Startup.started "your-secret-key-here" ∧
    ∀ env : Option String, serverStartup env ≠ Startup.refused := by
  refine ⟨rfl, ?_⟩
  intro env h
  cases h

/-- In any word holding no separator the split is the whole word. -/
theorem jsSplit_no_sep (sep : Char) (l : List Char) (h : sep ∉ l) :
    jsSplit sep l = [l] := by
  induction l with
  | nil => rfl
  | cons c rest ih =>
    have hc : c ≠ sep := fun hcs => h (hcs ▸ List.mem_cons_self c rest)
    have hrest : sep ∉ rest := fun hm => h (List.mem_cons_of_mem c hm)
    simp [jsSplit, ih hrest, hc]

/-- A split is never the empty list of pieces. -/
theorem jsSplit_ne_nil (sep : Char) (l : List Char) : jsSplit sep l ≠ [] := by
  cases l with
  | nil => simp [jsSplit]
  | cons c rest =>
    simp only [jsSplit]
    cases jsSplit sep rest with
    | nil => simp
    | cons w ws =>
      dsimp only
      split <;> simp

/-- Splitting a word, a separator and a tail peels the word off first. -/
theorem jsSplit_word_sep (sep : Char) (w t : List Char) (hw : sep ∉ w) :
    jsSplit sep (w ++ sep :: t) = w :: jsSplit sep t := by
  induction w with
  | nil =>
    cases hsp : jsSplit sep t with
    | nil => exact absurd hsp (jsSplit_ne_nil sep t)
    | cons w0 ws0 => simp [jsSplit, hsp]
  | cons c w ih =>
    have hc : c ≠ sep := fun hcs => hw (hcs ▸ List.mem_cons_self c w)
    have hw' : sep ∉ w := fun hm => hw (List.mem_cons_of_mem c hm)
    simp only [List.cons_append, jsSplit, List.append_eq]
    rw [ih hw']
    simp [hc]

/-- A header of the form word-space-token yields exactly the token, whatever
the word is. -/
theorem extractToken_word_space_token (w t : List Char)
    (hw : spaceChar ∉ w) (ht : spaceChar ∉ t) (hne : t ≠ []) :
    extractToken (some (w ++ spaceChar :: t)) = some t := by
  simp only [extractToken]
  rw [jsSplit_word_sep spaceChar w t hw, jsSplit_no_sep spaceChar t ht]
  simp [hne]

/-- A header holding no space splits into a single piece, so no token is
extracted. -/
theorem extractToken_no_space (h : List Char) (hh : spaceChar ∉ h) :
    extractToken (some h) = none := by
  simp only [extractToken]
  rw [jsSplit_no_sep spaceChar h hh]
  rfl

/-- C10: the middleware never checks the authorization scheme: for a header
word-space-token, the second space-separated word is taken as the token and
the gate's outcome is the same for every first word (so a Basic scheme is
treated exactly like Bearer), while a header containing no space at all
yields the 401 missing-token denial, not the 403 invalid-token one. -/
theorem scheme_not_checked_and_no_space_is_missing
    (C : Type) (verify : List Char → Option C) (w1 w2 t h : List Char)
    (hw1 : spaceChar ∉ w1) (hw2 : spaceChar ∉ w2) (htok : spaceChar ∉ t)
    (hne : t ≠ []) (hh : spaceChar ∉ h) :
    extractToken (some (w1 ++ spaceChar :: t)) = some t ∧
    authGate verify (some (w1 ++ spaceChar :: t))
      = authGate verify (some (w2 ++ spaceChar :: t)) ∧
    authGate verify (some h) = .denied 401 "Access token required" := by
  refine ⟨extractToken_word_space_token w1 t hw1 htok hne, ?_, ?_⟩
  · unfold authGate
    rw [extractToken_word_space_token w1 t hw1 htok hne,
        extractToken_word_space_token w2 t hw2 htok hne]
  · unfold authGate
    rw [extractToken_no_space h hh]
    rfl

/-- C10 witness: with a verifier accepting the token "tok" as user 7, the
headers "Basic tok" and "Bearer tok" are treated identically, and the
spaceless header "nospace" is denied with 401. -/
theorem scheme_not_checked_and_no_space_is_missing_witness :
    spaceChar ∉ "Basic".toList ∧ spaceChar ∉ "Bearer".toList ∧
    spaceChar ∉ "tok".toList ∧ "tok".toList ≠ [] ∧ spaceChar ∉ "nospace".toList ∧
    (extractToken (some ("Basic".toList ++ spaceChar :: "tok".toList))
       = some "tok".toList ∧
     authGate (fun s => if s = "tok".toList then some ({ userId := 7, email := "x@y" } : Claims) else none)
         (some ("Basic".toList ++ spaceChar :: "tok".toList))
       = authGate (fun s => if s = "tok".toList then some ({ userId := 7, email := "x@y" } : Claims) else none)
           (some ("Bearer".toList ++ spaceChar :: "tok".toList)) ∧
     authGate (fun s => if s = "tok".toList then some ({ userId := 7, email := "x@y" } : Claims) else none)
         (some "nospace".toList)
       = .denied 401 "Access token required") :=
  ⟨by decide, by decide, by decide, by decide, by decide,
   scheme_not_checked_and_no_space_is_missing Claims
     (fun s => if s = "tok".toList then some { userId := 7, email := "x@y" } else none)
     "Basic".toList "Bearer".toList "tok".toList "nospace".toList
     (by decide) (by decide) (by decide) (by decide) (by decide)⟩
